import Mathlib

/-!
Shallow embedding of `src/main.py` (a FastAPI service over MongoDB).

The MongoDB collections are modelled as in-order lists of documents plus a
counter supplying the next generated `ObjectId` (modelled as a `Nat`).
`find_one_and_update`, `update_one`, `delete_one`, `insert_one` and
`find_one` act on the first document matching the filter, in insertion
order, exactly as the single-node store does for these queries.
`HTTPException` and uncaught Python exceptions are modelled as the error
side of `Except`.
-/

set_option autoImplicit false

/-- A BSON value usable as a document `_id`: either a generated `ObjectId`
(modelled by a `Nat`) or a plain string. In BSON these are distinct types
and never compare equal. -/
inductive BsonId where
  | oid : Nat → BsonId
  | str : String → BsonId
deriving DecidableEq, Repr

/-- A document of the shared collection `db.mycollection` (`collection` in
the source), which holds both IP-counter documents and user documents.
Fields absent from a document are `none`. -/
structure MyDoc where
  _id : BsonId
  ip_address : Option String
  request_count : Option Int
  username : Option String
  email : Option String
deriving DecidableEq, Repr

/-- The state of `db.mycollection`: its documents in insertion order and
the next generated `ObjectId`. -/
structure MyCollection where
  docs : List MyDoc
  nextOid : Nat
deriving DecidableEq, Repr

/-- The response shape of the counter endpoints (`IPRequestResponse`). -/
structure IPRequestResponse where
  ip_address : String
  request_count : Int
deriving DecidableEq, Repr

/-- An error outcome of a handler: an `HTTPException` with status code and
detail, or an uncaught Python exception (`bson.errors.InvalidId` from
`ObjectId(...)`, or a `KeyError` from a missing document field). -/
inductive HErr where
  | http : Nat → String → HErr
  | invalidIdExn : HErr
  | keyErrorExn : HErr
deriving DecidableEq, Repr

/-- MongoDB `find_one_and_update` with `ReturnDocument.AFTER` (without
upsert), specialised to a decidable filter `p` and a document update `f`:
rewrites the first matching document and returns it post-update, or
returns `none` when no document matches. -/
def findOneAndUpdate {α : Type} (p : α → Bool) (f : α → α) : List α → Option (α × List α)
  | [] => none
  | d :: ds =>
    if p d then some (f d, f d :: ds)
    else
      match findOneAndUpdate p f ds with
      | some (r, ds') => some (r, d :: ds')
      | none => none

/-- MongoDB `delete_one`: removes the first document matching the filter
and reports success, or returns `none` when no document matches (so that
`deleted_count` would be `0`). -/
def delete_one {α : Type} (p : α → Bool) : List α → Option (List α)
  | [] => none
  | d :: ds => if p d then some ds else (delete_one p ds).map (d :: ·)

/-- Handler of `GET /requests/no-increment/{ip_address}`
(`get_or_create_no_increment` in the source): `find_one_and_update` on
`{"ip_address": ip_address}` with `{"$setOnInsert": {"ip_address": ...,
"request_count": 0}}`, `upsert=True`, `ReturnDocument.AFTER`. On a match
the update pipeline changes nothing; on no match a fresh document with
count 0 is inserted. With upsert the driver always returns a document, so
the source's 500 branch is unreachable; a missing field in the returned
document would raise a `KeyError`. -/
def get_or_create_no_increment (ip_address : String) (s : MyCollection) :
    Except HErr IPRequestResponse × MyCollection :=
  match findOneAndUpdate (fun d => d.ip_address == some ip_address) (fun d => d) s.docs with
  | some (result, docs') =>
    match result.ip_address, result.request_count with
    | some a, some c => (Except.ok ⟨a, c⟩, ⟨docs', s.nextOid⟩)
    | _, _ => (Except.error HErr.keyErrorExn, ⟨docs', s.nextOid⟩)
  | none =>
    let inserted : MyDoc := ⟨BsonId.oid s.nextOid, some ip_address, some 0, none, none⟩
    (Except.ok ⟨ip_address, 0⟩, ⟨s.docs ++ [inserted], s.nextOid + 1⟩)

/-- Handler of `GET /requests/increment/{ip_address}`
(`get_or_create_and_increment` in the source): `find_one_and_update` on
`{"ip_address": ip_address}` with `{"$inc": {"request_count": 1},
"$setOnInsert": {"ip_address": ...}}`, `upsert=True`,
`ReturnDocument.AFTER`. `$inc` treats a missing field as 0, so an upserted
document gets `request_count = 1`. -/
def get_or_create_and_increment (ip_address : String) (s : MyCollection) :
    Except HErr IPRequestResponse × MyCollection :=
  match findOneAndUpdate (fun d => d.ip_address == some ip_address)
      (fun d => { d with request_count := some (d.request_count.getD 0 + 1) }) s.docs with
  | some (result, docs') =>
    match result.ip_address, result.request_count with
    | some a, some c => (Except.ok ⟨a, c⟩, ⟨docs', s.nextOid⟩)
    | _, _ => (Except.error HErr.keyErrorExn, ⟨docs', s.nextOid⟩)
  | none =>
    let inserted : MyDoc := ⟨BsonId.oid s.nextOid, some ip_address, some 1, none, none⟩
    (Except.ok ⟨ip_address, 1⟩, ⟨s.docs ++ [inserted], s.nextOid + 1⟩)

/-- Handler of `POST /requests/reset/{ip_address}` (`reset_request_count`
in the source): `find_one_and_update` on `{"ip_address": ip_address}` with
`{"$set": {"request_count": 0}}`, no upsert, `ReturnDocument.AFTER`;
404 when no document matches. -/
def reset_request_count (ip_address : String) (s : MyCollection) :
    Except HErr IPRequestResponse × MyCollection :=
  match findOneAndUpdate (fun d => d.ip_address == some ip_address)
      (fun d => { d with request_count := some 0 }) s.docs with
  | some (result, docs') =>
    match result.ip_address, result.request_count with
    | some a, some c => (Except.ok ⟨a, c⟩, ⟨docs', s.nextOid⟩)
    | _, _ => (Except.error HErr.keyErrorExn, ⟨docs', s.nextOid⟩)
  | none =>
    (Except.error (HErr.http 404 ("No entry found for IP address " ++ ip_address)), s)

/-- A character accepted by `bson.ObjectId` in a 24-character hex string
(hex digits, either case). -/
def isHexChar (c : Char) : Bool :=
  c.isDigit || (decide (97 ≤ c.toNat) && decide (c.toNat ≤ 102))
    || (decide (65 ≤ c.toNat) && decide (c.toNat ≤ 70))

/-- Validity condition of `bson.ObjectId(str)` on a string argument: the
constructor accepts exactly a 24-character hex string and raises
`bson.errors.InvalidId` otherwise. -/
def isValidObjectIdString (str : String) : Bool :=
  str.length == 24 && str.data.all isHexChar

/-- Numeric value of a hex character (either case). -/
def hexCharVal (c : Char) : Nat :=
  if c.isDigit then c.toNat - 48
  else if decide (97 ≤ c.toNat) && decide (c.toNat ≤ 102) then c.toNat - 97 + 10
  else c.toNat - 65 + 10

/-- Numeric value of a big-endian list of hex characters. -/
def hexToNat (cs : List Char) : Nat :=
  cs.foldl (fun acc c => 16 * acc + hexCharVal c) 0

/-- `bson.ObjectId(str)` as a fallible conversion: `some` of the id's
numeric value on a 24-character hex string, `none` (the
`bson.errors.InvalidId` exception) otherwise. -/
def ObjectId? (str : String) : Option Nat :=
  if isValidObjectIdString str then some (hexToNat str.data) else none

/-- `str(object_id)`: the 24-character lowercase hex rendering of an
`ObjectId`, as returned to clients by `add_blog` and `create_dbuser`. -/
def str_of_oid (n : Nat) : String :=
  let cs := Nat.toDigits 16 n
  ⟨List.replicate (24 - cs.length) (Char.ofNat 48) ++ cs⟩

/-- A document of `db.AI_Blogs` (`blogs_collection` in the source). Every
blog document is created by `insert_one`, so its `_id` is always a
generated `ObjectId`, modelled directly as the `Nat` value. -/
structure BlogDoc where
  _id : Nat
  Title : String
  BlogType : String
  MarkdownContent : String
deriving DecidableEq, Repr

/-- The state of `db.AI_Blogs`: its documents in insertion order and the
next generated `ObjectId`. -/
structure BlogsCollection where
  docs : List BlogDoc
  nextOid : Nat
deriving DecidableEq, Repr

/-- Handler of `POST /api/add-blog` (`add_blog` in the source): builds the
document from the validated `Blog` payload, `insert_one`s it, and returns
`{"message": "Blog added", "id": str(result.inserted_id)}`. -/
def add_blog (Title BlogType MarkdownContent : String) (s : BlogsCollection) :
    (String × String) × BlogsCollection :=
  let new_blog : BlogDoc := ⟨s.nextOid, Title, BlogType, MarkdownContent⟩
  (("Blog added", str_of_oid s.nextOid), ⟨s.docs ++ [new_blog], s.nextOid + 1⟩)

/-- Handler of `DELETE /api/delete-blog/{blog_id}` (`delete_blog` in the
source): evaluates `ObjectId(blog_id)` first — raising
`bson.errors.InvalidId` before any store access on a malformed id — then
`delete_one({"_id": oid})`; 204 (`Except.ok ()`) when `deleted_count == 1`,
404 otherwise. -/
def delete_blog (blog_id : String) (s : BlogsCollection) :
    Except HErr Unit × BlogsCollection :=
  match ObjectId? blog_id with
  | none => (Except.error HErr.invalidIdExn, s)
  | some oid =>
    match delete_one (fun d => d._id == oid) s.docs with
    | some docs' => (Except.ok (), ⟨docs', s.nextOid⟩)
    | none =>
      (Except.error (HErr.http 404 ("Blog with id " ++ blog_id ++ " not found")), s)

/-- Handler of `PATCH /api/update-blog-content/{blog_id}`
(`update_blog_content` in the source): evaluates `ObjectId(blog_id)` first
— raising `bson.errors.InvalidId` before any store access on a malformed
id — then `update_one({"_id": oid}, {"$set": {"MarkdownContent":
payload.markdown_content}})`; 404 when `matched_count == 0`. -/
def update_blog_content (blog_id : String) (markdown_content : String) (s : BlogsCollection) :
    Except HErr String × BlogsCollection :=
  match ObjectId? blog_id with
  | none => (Except.error HErr.invalidIdExn, s)
  | some oid =>
    match findOneAndUpdate (fun d => d._id == oid)
        (fun d => { d with MarkdownContent := markdown_content }) s.docs with
    | some (_, docs') => (Except.ok "Markdown content updated successfully", ⟨docs', s.nextOid⟩)
    | none => (Except.error (HErr.http 404 "Blog not found"), s)

/-- Modelled from the spec: the `GET /api/get-all-blogs` handler
(`list_all` in the spec's Blog Repository) is not present in
`src/main.py` (only the comment announcing it is); per the spec it
"returns every blog entity in arbitrary but stable-for-the-query order;
no pagination". -/
def list_all (s : BlogsCollection) : List BlogDoc :=
  s.docs

/-- Handler of `POST /dbusers/` (`create_dbuser` in the source): a
`find_one({"email": user.email})` existence check, 400 on a hit; otherwise
`insert_one(user.dict())` into the shared `collection` and the response
`{"user_id": str(new_user.inserted_id), "username": user.username}`. -/
def create_dbuser (username email : String) (s : MyCollection) :
    Except HErr (String × String) × MyCollection :=
  match s.docs.find? (fun d => d.email == some email) with
  | some _ => (Except.error (HErr.http 400 "Email already registered"), s)
  | none =>
    let new_user : MyDoc := ⟨BsonId.oid s.nextOid, none, none, some username, some email⟩
    (Except.ok (str_of_oid s.nextOid, username),
     ⟨s.docs ++ [new_user], s.nextOid + 1⟩)

/-- Handler of `GET /dbusers/{user_id}` (`get_dbuser` in the source):
`find_one({"_id": user_id})` — the raw path string is compared against
stored `_id`s with no `ObjectId` conversion — then 404 when nothing
matches. Read-only: it never changes the store. -/
def get_dbuser (user_id : String) (s : MyCollection) :
    Except HErr (String × String) :=
  match s.docs.find? (fun d => d._id == BsonId.str user_id) with
  | some user =>
    match user.username with
    | some un => Except.ok (user_id, un)
    | none => Except.error HErr.keyErrorExn
  | none => Except.error (HErr.http 404 "User not found")

/-- One call to a counter endpoint, for stating invariants over arbitrary
operation sequences. -/
inductive CounterOp where
  | noInc : String → CounterOp
  | inc : String → CounterOp
  | reset : String → CounterOp
deriving DecidableEq, Repr

/-- The store state after one counter endpoint call. -/
def applyCounterOp : CounterOp → MyCollection → MyCollection
  | CounterOp.noInc ip, s => (get_or_create_no_increment ip s).2
  | CounterOp.inc ip, s => (get_or_create_and_increment ip s).2
  | CounterOp.reset ip, s => (reset_request_count ip s).2

/-- The store state after a sequence of counter endpoint calls. -/
def applyCounterOps : List CounterOp → MyCollection → MyCollection
  | [], s => s
  | o :: os, s => applyCounterOps os (applyCounterOp o s)

/-- Every `request_count` field present in the store is non-negative. -/
def countersNonneg (s : MyCollection) : Prop :=
  ∀ d ∈ s.docs, ∀ c : Int, d.request_count = some c → 0 ≤ c

/-- The key `ip_address` has never been seen: no document carries it. -/
def freshKey (ip_address : String) (s : MyCollection) : Prop :=
  ∀ d ∈ s.docs, d.ip_address ≠ some ip_address

/-- The store state after `n` calls to the increment endpoint on
`ip_address`, starting from `s`. -/
def incStates (ip_address : String) (s : MyCollection) : Nat → MyCollection
  | 0 => s
  | n + 1 => (get_or_create_and_increment ip_address (incStates ip_address s n)).2

theorem findOneAndUpdate_eq_none_iff {α : Type} (p : α → Bool) (f : α → α) (l : List α) :
    findOneAndUpdate p f l = none ↔ ∀ x ∈ l, p x = false := by
  induction l with
  | nil => simp [findOneAndUpdate]
  | cons d ds ih =>
    cases hpd : p d with
    | true =>
      simp only [findOneAndUpdate, hpd, if_true]
      constructor
      · intro h; cases h
      · intro h
        have := h d (by simp)
        rw [this] at hpd
        cases hpd
    | false =>
      simp only [findOneAndUpdate, hpd, Bool.false_eq_true, if_false]
      cases hf : findOneAndUpdate p f ds with
      | none =>
        simp only [List.mem_cons, true_iff]
        intro x hx
        rcases hx with rfl | hx
        · exact hpd
        · exact (ih.mp hf) x hx
      | some rl =>
        obtain ⟨r, ds'⟩ := rl
        simp only [List.mem_cons]
        constructor
        · intro h; cases h
        · intro h
          have : findOneAndUpdate p f ds = none := ih.mpr (fun x hx => h x (Or.inr hx))
          rw [this] at hf
          cases hf

theorem findOneAndUpdate_append_of {α : Type} (p : α → Bool) (f : α → α)
    (xs : List α) (d : α) (ys : List α)
    (hxs : ∀ x ∈ xs, p x = false) (hd : p d = true) :
    findOneAndUpdate p f (xs ++ d :: ys) = some (f d, xs ++ f d :: ys) := by
  induction xs with
  | nil => simp [findOneAndUpdate, hd]
  | cons a as ih =>
    have ha : p a = false := hxs a (by simp)
    have ih' := ih (fun x hx => hxs x (by simp [hx]))
    simp only [List.cons_append, findOneAndUpdate, ha, Bool.false_eq_true, if_false,
      List.append_eq, ih']

theorem findOneAndUpdate_eq_some {α : Type} {p : α → Bool} {f : α → α} {l : List α}
    {r : α} {l' : List α} (h : findOneAndUpdate p f l = some (r, l')) :
    ∃ pre d post, l = pre ++ d :: post ∧ (∀ x ∈ pre, p x = false) ∧ p d = true ∧
      r = f d ∧ l' = pre ++ f d :: post := by
  induction l generalizing r l' with
  | nil => cases h
  | cons a as ih =>
    cases hpa : p a with
    | true =>
      simp only [findOneAndUpdate, hpa, if_true, Option.some.injEq, Prod.mk.injEq] at h
      exact ⟨[], a, as, by simp, by simp, hpa, h.1.symm, by simp [h.2.symm]⟩
    | false =>
      simp only [findOneAndUpdate, hpa, Bool.false_eq_true, if_false] at h
      cases hf : findOneAndUpdate p f as with
      | none => rw [hf] at h; cases h
      | some rl =>
        obtain ⟨r₀, as'⟩ := rl
        rw [hf] at h
        simp only [Option.some.injEq, Prod.mk.injEq] at h
        obtain ⟨pre, e, post, hds, hpre, hpe, hre, has'⟩ := ih hf
        refine ⟨a :: pre, e, post, by simp [hds], ?_, hpe, by rw [← h.1, hre], ?_⟩
        · intro x hx
          rcases List.mem_cons.mp hx with rfl | hx
          · exact hpa
          · exact hpre x hx
        · rw [← h.2, has']
          simp

theorem delete_one_eq_none_iff {α : Type} (p : α → Bool) (l : List α) :
    delete_one p l = none ↔ ∀ x ∈ l, p x = false := by
  induction l with
  | nil => simp [delete_one]
  | cons d ds ih =>
    cases hpd : p d with
    | true =>
      simp only [delete_one, hpd, if_true]
      constructor
      · intro h; cases h
      · intro h
        have := h d (by simp)
        rw [this] at hpd
        cases hpd
    | false =>
      simp only [delete_one, hpd, Bool.false_eq_true, if_false]
      cases hD : delete_one p ds with
      | none =>
        have hall := ih.mp hD
        refine ⟨fun _ x hx => ?_, fun _ => rfl⟩
        rcases List.mem_cons.mp hx with rfl | hx
        · exact hpd
        · exact hall x hx
      | some ds' =>
        constructor
        · intro h; cases h
        · intro h
          have hnone : delete_one p ds = none :=
            ih.mpr (fun x hx => h x (List.mem_cons.mpr (Or.inr hx)))
          rw [hnone] at hD
          cases hD

theorem freshKey_filter_false (ip : String) (s : MyCollection) (h : freshKey ip s) :
    ∀ d ∈ s.docs, (d.ip_address == some ip) = false := by
  intro d hd
  exact beq_eq_false_iff_ne.mpr (h d hd)

theorem noInc_fresh (ip : String) (s : MyCollection) (h : freshKey ip s) :
    get_or_create_no_increment ip s
      = (Except.ok ⟨ip, 0⟩,
         ⟨s.docs ++ [⟨BsonId.oid s.nextOid, some ip, some 0, none, none⟩], s.nextOid + 1⟩) := by
  have hnone : findOneAndUpdate (fun d => d.ip_address == some ip) (fun d => d) s.docs = none :=
    (findOneAndUpdate_eq_none_iff _ _ _).mpr (freshKey_filter_false ip s h)
  unfold get_or_create_no_increment
  rw [hnone]

theorem noInc_found (ip : String) (s : MyCollection)
    (pre : List MyDoc) (d : MyDoc) (post : List MyDoc)
    (hdocs : s.docs = pre ++ d :: post)
    (hpre : ∀ x ∈ pre, (x.ip_address == some ip) = false)
    (hip : d.ip_address = some ip) (c : Int) (hc : d.request_count = some c) :
    get_or_create_no_increment ip s = (Except.ok ⟨ip, c⟩, s) := by
  obtain ⟨docs, k⟩ := s
  simp only at hdocs
  subst hdocs
  have hpd : (d.ip_address == some ip) = true := by simp [hip]
  have hfau := findOneAndUpdate_append_of (fun x => x.ip_address == some ip)
      (fun x => x) pre d post hpre hpd
  unfold get_or_create_no_increment
  rw [hfau]
  simp only [hip, hc]

theorem inc_fresh (ip : String) (s : MyCollection) (h : freshKey ip s) :
    get_or_create_and_increment ip s
      = (Except.ok ⟨ip, 1⟩,
         ⟨s.docs ++ [⟨BsonId.oid s.nextOid, some ip, some 1, none, none⟩], s.nextOid + 1⟩) := by
  have hnone : findOneAndUpdate (fun d => d.ip_address == some ip)
      (fun d => { d with request_count := some (d.request_count.getD 0 + 1) }) s.docs = none :=
    (findOneAndUpdate_eq_none_iff _ _ _).mpr (freshKey_filter_false ip s h)
  unfold get_or_create_and_increment
  rw [hnone]

theorem inc_found (ip : String) (s : MyCollection)
    (pre : List MyDoc) (d : MyDoc) (post : List MyDoc)
    (hdocs : s.docs = pre ++ d :: post)
    (hpre : ∀ x ∈ pre, (x.ip_address == some ip) = false)
    (hip : d.ip_address = some ip) :
    get_or_create_and_increment ip s
      = (Except.ok ⟨ip, d.request_count.getD 0 + 1⟩,
         ⟨pre ++ { d with request_count := some (d.request_count.getD 0 + 1) } :: post,
          s.nextOid⟩) := by
  obtain ⟨docs, k⟩ := s
  simp only at hdocs
  subst hdocs
  have hpd : (d.ip_address == some ip) = true := by simp [hip]
  have hfau := findOneAndUpdate_append_of (fun x => x.ip_address == some ip)
      (fun x => { x with request_count := some (x.request_count.getD 0 + 1) }) pre d post hpre hpd
  unfold get_or_create_and_increment
  rw [hfau]
  simp only [hip]

theorem reset_fresh (ip : String) (s : MyCollection) (h : freshKey ip s) :
    reset_request_count ip s
      = (Except.error (HErr.http 404 ("No entry found for IP address " ++ ip)), s) := by
  have hnone : findOneAndUpdate (fun d => d.ip_address == some ip)
      (fun d => { d with request_count := some 0 }) s.docs = none :=
    (findOneAndUpdate_eq_none_iff _ _ _).mpr (freshKey_filter_false ip s h)
  unfold reset_request_count
  rw [hnone]

theorem reset_found (ip : String) (s : MyCollection)
    (pre : List MyDoc) (d : MyDoc) (post : List MyDoc)
    (hdocs : s.docs = pre ++ d :: post)
    (hpre : ∀ x ∈ pre, (x.ip_address == some ip) = false)
    (hip : d.ip_address = some ip) :
    reset_request_count ip s
      = (Except.ok ⟨ip, 0⟩,
         ⟨pre ++ { d with request_count := some 0 } :: post, s.nextOid⟩) := by
  obtain ⟨docs, k⟩ := s
  simp only at hdocs
  subst hdocs
  have hpd : (d.ip_address == some ip) = true := by simp [hip]
  have hfau := findOneAndUpdate_append_of (fun x => x.ip_address == some ip)
      (fun x => { x with request_count := some 0 }) pre d post hpre hpd
  unfold reset_request_count
  rw [hfau]
  simp only [hip]

theorem delete_one_append_of {α : Type} (p : α → Bool)
    (xs : List α) (d : α) (ys : List α)
    (hxs : ∀ x ∈ xs, p x = false) (hd : p d = true) :
    delete_one p (xs ++ d :: ys) = some (xs ++ ys) := by
  induction xs with
  | nil => simp [delete_one, hd]
  | cons a as ih =>
    have ha : p a = false := hxs a (by simp)
    have ih' := ih (fun x hx => hxs x (by simp [hx]))
    simp only [List.cons_append, delete_one, ha, Bool.false_eq_true, if_false,
      List.append_eq, ih']
    rfl

/-- C2: for a previously-unseen key, the no-increment endpoint creates the
entity with `request_count = 0` and returns count 0, and a subsequent call
with the same key returns the same count and leaves the stored state
exactly unchanged — the operation never increments, so repeating it is
idempotent on the stored count. -/
theorem no_increment_fresh_creates_zero_and_is_idempotent (ip : String) (s : MyCollection)
    (h : freshKey ip s) :
    get_or_create_no_increment ip s
      = (Except.ok ⟨ip, 0⟩,
         ⟨s.docs ++ [⟨BsonId.oid s.nextOid, some ip, some 0, none, none⟩], s.nextOid + 1⟩)
    ∧ get_or_create_no_increment ip (get_or_create_no_increment ip s).2
      = (Except.ok ⟨ip, 0⟩, (get_or_create_no_increment ip s).2) := by
  have h1 := noInc_fresh ip s h
  refine ⟨h1, ?_⟩
  rw [h1]
  exact noInc_found ip
    ⟨s.docs ++ [⟨BsonId.oid s.nextOid, some ip, some 0, none, none⟩], s.nextOid + 1⟩
    s.docs ⟨BsonId.oid s.nextOid, some ip, some 0, none, none⟩ []
    (by simp) (freshKey_filter_false ip s h) rfl 0 rfl

/-- Witness for C2 at the concrete key `"203.0.113.9"` and the empty
store. -/
theorem no_increment_fresh_creates_zero_and_is_idempotent_witness :
    freshKey "203.0.113.9" ⟨[], 0⟩
    ∧ (get_or_create_no_increment "203.0.113.9" ⟨[], 0⟩
        = (Except.ok ⟨"203.0.113.9", 0⟩,
           ⟨[⟨BsonId.oid 0, some "203.0.113.9", some 0, none, none⟩], 1⟩)
      ∧ get_or_create_no_increment "203.0.113.9"
          (get_or_create_no_increment "203.0.113.9" ⟨[], 0⟩).2
        = (Except.ok ⟨"203.0.113.9", 0⟩,
           (get_or_create_no_increment "203.0.113.9" ⟨[], 0⟩).2)) :=
  ⟨by simp [freshKey],
   no_increment_fresh_creates_zero_and_is_idempotent "203.0.113.9" ⟨[], 0⟩
     (by simp [freshKey])⟩

theorem incStates_fresh (ip : String) (s : MyCollection) (h : freshKey ip s) :
    ∀ n : Nat,
      (incStates ip s (n + 1)).docs
        = s.docs ++ [⟨BsonId.oid s.nextOid, some ip, some ((n : Int) + 1), none, none⟩]
      ∧ (incStates ip s (n + 1)).nextOid = s.nextOid + 1 := by
  intro n
  induction n with
  | zero =>
    have h1 := inc_fresh ip s h
    simp only [incStates, h1]
    constructor
    · norm_num
    · trivial
  | succ m ih =>
    obtain ⟨ihd, ihn⟩ := ih
    have hfound := inc_found ip (incStates ip s (m + 1)) s.docs
      ⟨BsonId.oid s.nextOid, some ip, some ((m : Int) + 1), none, none⟩ []
      (by rw [ihd]) (freshKey_filter_false ip s h) rfl
    show (get_or_create_and_increment ip (incStates ip s (m + 1))).2.docs = _
      ∧ (get_or_create_and_increment ip (incStates ip s (m + 1))).2.nextOid = _
    rw [hfound]
    constructor
    · simp only [Option.getD_some]
      have : ((m : Int) + 1) + 1 = ((m + 1 : Nat) : Int) + 1 := by push_cast; ring
      rw [this]
    · exact ihn

/-- C1: starting from a store in which the key has never been seen,
sequential calls to the increment endpoint return the post-increment
counts 1, 2, ..., N in order: the `(n+1)`-st call (applied to the state
after `n` calls) returns exactly `n + 1`. -/
theorem increment_sequence_returns_counts_in_order (ip : String) (s : MyCollection)
    (h : freshKey ip s) (n : Nat) :
    (get_or_create_and_increment ip (incStates ip s n)).1
      = Except.ok ⟨ip, (n : Int) + 1⟩ := by
  cases n with
  | zero =>
    have h1 := inc_fresh ip s h
    simp only [incStates, h1]
    norm_num
  | succ m =>
    obtain ⟨ihd, _⟩ := incStates_fresh ip s h m
    have hfound := inc_found ip (incStates ip s (m + 1)) s.docs
      ⟨BsonId.oid s.nextOid, some ip, some ((m : Int) + 1), none, none⟩ []
      (by rw [ihd]) (freshKey_filter_false ip s h) rfl
    rw [hfound]
    simp only [Option.getD_some]
    have : ((m : Int) + 1) + 1 = ((m + 1 : Nat) : Int) + 1 := by push_cast; ring
    rw [this]

/-- Witness for C1: the third call on key `"198.51.100.7"` starting from
the empty store returns count 3. -/
theorem increment_sequence_returns_counts_in_order_witness :
    freshKey "198.51.100.7" ⟨[], 0⟩
    ∧ (get_or_create_and_increment "198.51.100.7" (incStates "198.51.100.7" ⟨[], 0⟩ 2)).1
        = Except.ok ⟨"198.51.100.7", ((2 : Nat) : Int) + 1⟩ :=
  ⟨by simp [freshKey],
   increment_sequence_returns_counts_in_order "198.51.100.7" ⟨[], 0⟩ (by simp [freshKey]) 2⟩

/-- C3: `reset_request_count` on a never-seen key fails with 404 and
creates no entity (the store is unchanged, so a never-seen key stays
distinguishable from a seen key at zero); on a seen key it sets the
stored count to 0 and returns that entity with count 0, and the next
increment call on the key returns 1. -/
theorem reset_notfound_on_unseen_and_zeroes_seen (ip : String) (s : MyCollection) :
    (freshKey ip s →
      reset_request_count ip s
        = (Except.error (HErr.http 404 ("No entry found for IP address " ++ ip)), s))
    ∧ (∀ pre d post, s.docs = pre ++ d :: post →
        (∀ x ∈ pre, (x.ip_address == some ip) = false) →
        d.ip_address = some ip →
        reset_request_count ip s
          = (Except.ok ⟨ip, 0⟩,
             ⟨pre ++ { d with request_count := some 0 } :: post, s.nextOid⟩)
        ∧ (get_or_create_and_increment ip (reset_request_count ip s).2).1
            = Except.ok ⟨ip, 1⟩) := by
  constructor
  · intro h
    exact reset_fresh ip s h
  · intro pre d post hdocs hpre hip
    have hreset := reset_found ip s pre d post hdocs hpre hip
    refine ⟨hreset, ?_⟩
    rw [hreset]
    have hinc := inc_found ip ⟨pre ++ { d with request_count := some 0 } :: post, s.nextOid⟩
      pre { d with request_count := some 0 } post rfl hpre hip
    rw [hinc]
    norm_num

/-- Witness for C3 at key `"192.0.2.1"`: 404 on the empty store; on a
store holding the key at count 7, reset returns 0 and the next increment
returns 1. -/
theorem reset_notfound_on_unseen_and_zeroes_seen_witness :
    (reset_request_count "192.0.2.1" ⟨[], 0⟩
       = (Except.error (HErr.http 404 ("No entry found for IP address " ++ "192.0.2.1")),
          ⟨[], 0⟩))
    ∧ (reset_request_count "192.0.2.1"
         ⟨[⟨BsonId.oid 0, some "192.0.2.1", some 7, none, none⟩], 1⟩
         = (Except.ok ⟨"192.0.2.1", 0⟩,
            ⟨[⟨BsonId.oid 0, some "192.0.2.1", some 0, none, none⟩], 1⟩)
       ∧ (get_or_create_and_increment "192.0.2.1"
            (reset_request_count "192.0.2.1"
              ⟨[⟨BsonId.oid 0, some "192.0.2.1", some 7, none, none⟩], 1⟩).2).1
           = Except.ok ⟨"192.0.2.1", 1⟩) :=
  ⟨(reset_notfound_on_unseen_and_zeroes_seen "192.0.2.1" ⟨[], 0⟩).1 (by simp [freshKey]),
   (reset_notfound_on_unseen_and_zeroes_seen "192.0.2.1"
       ⟨[⟨BsonId.oid 0, some "192.0.2.1", some 7, none, none⟩], 1⟩).2
     [] ⟨BsonId.oid 0, some "192.0.2.1", some 7, none, none⟩ [] rfl (by simp) rfl⟩

theorem noInc_snd_of_found (ip : String) (s : MyCollection) (r : MyDoc) (docs' : List MyDoc)
    (hf : findOneAndUpdate (fun d => d.ip_address == some ip) (fun d => d) s.docs
      = some (r, docs')) :
    (get_or_create_no_increment ip s).2 = ⟨docs', s.nextOid⟩ := by
  unfold get_or_create_no_increment
  rw [hf]
  obtain ⟨rid, rip, rrc, ru, re⟩ := r
  cases rip <;> cases rrc <;> rfl

theorem inc_snd_of_found (ip : String) (s : MyCollection) (r : MyDoc) (docs' : List MyDoc)
    (hf : findOneAndUpdate (fun d => d.ip_address == some ip)
      (fun d => { d with request_count := some (d.request_count.getD 0 + 1) }) s.docs
      = some (r, docs')) :
    (get_or_create_and_increment ip s).2 = ⟨docs', s.nextOid⟩ := by
  unfold get_or_create_and_increment
  rw [hf]
  obtain ⟨rid, rip, rrc, ru, re⟩ := r
  cases rip <;> cases rrc <;> rfl

theorem reset_snd_of_found (ip : String) (s : MyCollection) (r : MyDoc) (docs' : List MyDoc)
    (hf : findOneAndUpdate (fun d => d.ip_address == some ip)
      (fun d => { d with request_count := some 0 }) s.docs = some (r, docs')) :
    (reset_request_count ip s).2 = ⟨docs', s.nextOid⟩ := by
  unfold reset_request_count
  rw [hf]
  obtain ⟨rid, rip, rrc, ru, re⟩ := r
  cases rip <;> cases rrc <;> rfl

theorem countersNonneg_decomp (pre : List MyDoc) (e : MyDoc) (post : List MyDoc) (k : Nat)
    (hpre : countersNonneg ⟨pre ++ post, k⟩)
    (he : ∀ c : Int, e.request_count = some c → 0 ≤ c) :
    countersNonneg ⟨pre ++ e :: post, k⟩ := by
  intro x hx c hc
  simp only [List.mem_append, List.mem_cons] at hx
  rcases hx with hx | rfl | hx
  · exact hpre x (by simp [hx]) c hc
  · exact he c hc
  · exact hpre x (by simp [hx]) c hc

theorem applyCounterOp_nonneg (o : CounterOp) (s : MyCollection) (h : countersNonneg s) :
    countersNonneg (applyCounterOp o s) := by
  obtain ⟨docs, k⟩ := s
  have hmem : ∀ pre (e : MyDoc) post, docs = pre ++ e :: post →
      ∀ k', countersNonneg (⟨pre ++ post, k'⟩ : MyCollection) := by
    intro pre e post hdocs k' x hx c hc
    refine h x ?_ c hc
    subst hdocs
    simp only [List.mem_append, List.mem_cons] at hx ⊢
    tauto
  cases o with
  | noInc ip =>
    show countersNonneg (get_or_create_no_increment ip ⟨docs, k⟩).2
    cases hf : findOneAndUpdate (fun d => d.ip_address == some ip) (fun d => d) docs with
    | none =>
      rw [show (get_or_create_no_increment ip ⟨docs, k⟩).2
          = ⟨docs ++ [⟨BsonId.oid k, some ip, some 0, none, none⟩], k + 1⟩ by
        unfold get_or_create_no_increment; rw [hf]]
      intro x hx c hc
      simp only [List.mem_append, List.mem_cons] at hx
      rcases hx with hx | rfl | hx
      · exact h x (by simp [hx]) c hc
      · simp only [Option.some.injEq] at hc
        omega
      · cases hx
    | some rl =>
      obtain ⟨r, docs'⟩ := rl
      rw [noInc_snd_of_found ip ⟨docs, k⟩ r docs' hf]
      obtain ⟨pre, e, post, hdocs, hpre, hpe, hre, hdocs'⟩ := findOneAndUpdate_eq_some hf
      subst hdocs'
      exact countersNonneg_decomp pre e post k (hmem pre e post hdocs k)
        (fun c hc => h e (by rw [hdocs]; simp) c hc)
  | inc ip =>
    show countersNonneg (get_or_create_and_increment ip ⟨docs, k⟩).2
    cases hf : findOneAndUpdate (fun d => d.ip_address == some ip)
        (fun d => { d with request_count := some (d.request_count.getD 0 + 1) }) docs with
    | none =>
      rw [show (get_or_create_and_increment ip ⟨docs, k⟩).2
          = ⟨docs ++ [⟨BsonId.oid k, some ip, some 1, none, none⟩], k + 1⟩ by
        unfold get_or_create_and_increment; rw [hf]]
      intro x hx c hc
      simp only [List.mem_append, List.mem_cons] at hx
      rcases hx with hx | rfl | hx
      · exact h x (by simp [hx]) c hc
      · simp only [Option.some.injEq] at hc
        omega
      · cases hx
    | some rl =>
      obtain ⟨r, docs'⟩ := rl
      rw [inc_snd_of_found ip ⟨docs, k⟩ r docs' hf]
      obtain ⟨pre, e, post, hdocs, hpre, hpe, hre, hdocs'⟩ := findOneAndUpdate_eq_some hf
      subst hdocs'
      refine countersNonneg_decomp pre _ post k (hmem pre e post hdocs k) ?_
      intro c hc
      simp only [Option.some.injEq] at hc
      subst hc
      cases he : e.request_count with
      | none => simp [he]
      | some c₀ =>
        have := h e (by rw [hdocs]; simp) c₀ he
        simp [he]
        omega
  | reset ip =>
    show countersNonneg (reset_request_count ip ⟨docs, k⟩).2
    cases hf : findOneAndUpdate (fun d => d.ip_address == some ip)
        (fun d => { d with request_count := some 0 }) docs with
    | none =>
      rw [show (reset_request_count ip ⟨docs, k⟩).2 = ⟨docs, k⟩ by
        unfold reset_request_count; rw [hf]]
      exact h
    | some rl =>
      obtain ⟨r, docs'⟩ := rl
      rw [reset_snd_of_found ip ⟨docs, k⟩ r docs' hf]
      obtain ⟨pre, e, post, hdocs, hpre, hpe, hre, hdocs'⟩ := findOneAndUpdate_eq_some hf
      subst hdocs'
      refine countersNonneg_decomp pre _ post k (hmem pre e post hdocs k) ?_
      intro c hc
      simp only [Option.some.injEq] at hc
      omega

theorem applyCounterOps_nonneg (ops : List CounterOp) :
    ∀ s : MyCollection, countersNonneg s → countersNonneg (applyCounterOps ops s) := by
  induction ops with
  | nil => intro s h; exact h
  | cons o os ih =>
    intro s h
    exact ih _ (applyCounterOp_nonneg o s h)

/-- C6: starting from any store whose stored request counts are all
non-negative, the count created implicitly by the get-or-create endpoint
on a fresh key is 0, and after any sequence of counter endpoint calls
(get-or-create, get-or-create-and-increment, reset) every stored request
count is still non-negative. -/
theorem counter_counts_start_at_zero_and_stay_nonneg (s : MyCollection)
    (h : countersNonneg s) :
    (∀ ip, freshKey ip s →
        ∃ d ∈ (get_or_create_no_increment ip s).2.docs,
          d.ip_address = some ip ∧ d.request_count = some 0)
    ∧ ∀ ops : List CounterOp, countersNonneg (applyCounterOps ops s) := by
  constructor
  · intro ip hip
    rw [noInc_fresh ip s hip]
    exact ⟨⟨BsonId.oid s.nextOid, some ip, some 0, none, none⟩, by simp, rfl, rfl⟩
  · intro ops
    exact applyCounterOps_nonneg ops s h

/-- Witness for C6 at the empty store and a concrete operation
sequence. -/
theorem counter_counts_start_at_zero_and_stay_nonneg_witness :
    countersNonneg ⟨[], 0⟩
    ∧ freshKey "198.18.0.1" ⟨[], 0⟩
    ∧ (∃ d ∈ (get_or_create_no_increment "198.18.0.1" ⟨[], 0⟩).2.docs,
        d.ip_address = some "198.18.0.1" ∧ d.request_count = some 0)
    ∧ countersNonneg
        (applyCounterOps
          [CounterOp.inc "198.18.0.1", CounterOp.reset "198.18.0.1",
           CounterOp.noInc "198.18.0.1"] ⟨[], 0⟩) :=
  ⟨by simp [countersNonneg],
   by simp [freshKey],
   (counter_counts_start_at_zero_and_stay_nonneg ⟨[], 0⟩
       (by simp [countersNonneg])).1 "198.18.0.1" (by simp [freshKey]),
   (counter_counts_start_at_zero_and_stay_nonneg ⟨[], 0⟩
       (by simp [countersNonneg])).2
     [CounterOp.inc "198.18.0.1", CounterOp.reset "198.18.0.1",
      CounterOp.noInc "198.18.0.1"]⟩

/-- C5: creating a blog and then listing all blogs (the spec-modelled
`list_all`, since the `GET /api/get-all-blogs` handler is absent from
`src/main.py`) yields an entry whose Title, BlogType and MarkdownContent
exactly match the input of the create. -/
theorem add_blog_then_list_all_includes_input (Title BlogType MarkdownContent : String)
    (s : BlogsCollection) :
    ∃ d ∈ list_all (add_blog Title BlogType MarkdownContent s).2,
      d.Title = Title ∧ d.BlogType = BlogType ∧ d.MarkdownContent = MarkdownContent :=
  ⟨⟨s.nextOid, Title, BlogType, MarkdownContent⟩, by simp [add_blog, list_all], rfl, rfl, rfl⟩

/-- C7: updating a blog's content (where the path id parses to the `_id`
of the first matching document) succeeds and replaces only the
`MarkdownContent` field of that document: its `Title` and `BlogType` are
unchanged, and every document in `pre` and `post` is untouched. -/
theorem update_blog_content_replaces_only_content (blog_id markdown_content : String)
    (s : BlogsCollection) (oid : Nat) (hid : ObjectId? blog_id = some oid)
    (pre : List BlogDoc) (d : BlogDoc) (post : List BlogDoc)
    (hdocs : s.docs = pre ++ d :: post)
    (hpre : ∀ x ∈ pre, (x._id == oid) = false)
    (hd : (d._id == oid) = true) :
    update_blog_content blog_id markdown_content s
      = (Except.ok "Markdown content updated successfully",
         ⟨pre ++ { d with MarkdownContent := markdown_content } :: post, s.nextOid⟩)
    ∧ ({ d with MarkdownContent := markdown_content } : BlogDoc).Title = d.Title
    ∧ ({ d with MarkdownContent := markdown_content } : BlogDoc).BlogType = d.BlogType := by
  obtain ⟨docs, k⟩ := s
  simp only at hdocs
  subst hdocs
  have hfau := findOneAndUpdate_append_of (fun x => x._id == oid)
      (fun x => { x with MarkdownContent := markdown_content }) pre d post hpre hd
  refine ⟨?_, rfl, rfl⟩
  unfold update_blog_content
  simp only [hid, hfau]

/-- Witness for C7 at a concrete well-formed id and one-document store. -/
theorem update_blog_content_replaces_only_content_witness :
    ObjectId? "000000000000000000000005" = some 5
    ∧ (update_blog_content "000000000000000000000005" "new text"
         ⟨[⟨5, "my title", "my type", "old text"⟩], 6⟩
         = (Except.ok "Markdown content updated successfully",
            ⟨[⟨5, "my title", "my type", "new text"⟩], 6⟩)
       ∧ ({ (⟨5, "my title", "my type", "old text"⟩ : BlogDoc) with
             MarkdownContent := "new text" } : BlogDoc).Title
           = (⟨5, "my title", "my type", "old text"⟩ : BlogDoc).Title
       ∧ ({ (⟨5, "my title", "my type", "old text"⟩ : BlogDoc) with
             MarkdownContent := "new text" } : BlogDoc).BlogType
           = (⟨5, "my title", "my type", "old text"⟩ : BlogDoc).BlogType) :=
  ⟨by decide,
   update_blog_content_replaces_only_content "000000000000000000000005" "new text"
     ⟨[⟨5, "my title", "my type", "old text"⟩], 6⟩ 5 (by decide)
     [] ⟨5, "my title", "my type", "old text"⟩ [] rfl (by simp) (by decide)⟩

/-- C8: when the id parses and exactly one stored blog matches it, the
first delete succeeds with 204 and removes exactly that document; a second
delete of the same id fails with 404 and leaves the store unchanged; in
general a delete whose parsed id matches no document fails with 404 and
changes nothing. -/
theorem delete_blog_twice_204_then_404 (blog_id : String) (s : BlogsCollection)
    (oid : Nat) (hid : ObjectId? blog_id = some oid)
    (pre : List BlogDoc) (d : BlogDoc) (post : List BlogDoc)
    (hdocs : s.docs = pre ++ d :: post)
    (hpre : ∀ x ∈ pre, (x._id == oid) = false)
    (hpost : ∀ x ∈ post, (x._id == oid) = false)
    (hd : (d._id == oid) = true) :
    delete_blog blog_id s = (Except.ok (), ⟨pre ++ post, s.nextOid⟩)
    ∧ delete_blog blog_id ⟨pre ++ post, s.nextOid⟩
        = (Except.error (HErr.http 404 ("Blog with id " ++ blog_id ++ " not found")),
           ⟨pre ++ post, s.nextOid⟩)
    ∧ ∀ t : BlogsCollection, (∀ x ∈ t.docs, (x._id == oid) = false) →
        delete_blog blog_id t
          = (Except.error (HErr.http 404 ("Blog with id " ++ blog_id ++ " not found")), t) := by
  obtain ⟨docs, k⟩ := s
  simp only at hdocs
  subst hdocs
  have h404 : ∀ t : BlogsCollection, (∀ x ∈ t.docs, (x._id == oid) = false) →
      delete_blog blog_id t
        = (Except.error (HErr.http 404 ("Blog with id " ++ blog_id ++ " not found")), t) := by
    intro t ht
    have hnone : delete_one (fun x => x._id == oid) t.docs = none :=
      (delete_one_eq_none_iff _ _).mpr ht
    unfold delete_blog
    simp only [hid, hnone]
  have hdel := delete_one_append_of (fun x => x._id == oid) pre d post hpre hd
  refine ⟨?_, ?_, h404⟩
  · unfold delete_blog
    simp only [hid, hdel]
  · refine h404 ⟨pre ++ post, k⟩ ?_
    intro x hx
    rcases List.mem_append.mp hx with hx | hx
    · exact hpre x hx
    · exact hpost x hx

/-- Witness for C8 at a concrete well-formed id and one-document store. -/
theorem delete_blog_twice_204_then_404_witness :
    ObjectId? "00000000000000000000000a" = some 10
    ∧ (delete_blog "00000000000000000000000a" ⟨[⟨10, "t", "ty", "m"⟩], 11⟩
         = (Except.ok (), ⟨[], 11⟩)
       ∧ delete_blog "00000000000000000000000a" ⟨[], 11⟩
           = (Except.error
                (HErr.http 404
                  ("Blog with id " ++ "00000000000000000000000a" ++ " not found")),
              ⟨[], 11⟩)
       ∧ ∀ t : BlogsCollection, (∀ x ∈ t.docs, (x._id == 10) = false) →
           delete_blog "00000000000000000000000a" t
             = (Except.error
                  (HErr.http 404
                    ("Blog with id " ++ "00000000000000000000000a" ++ " not found")), t)) :=
  ⟨by decide,
   delete_blog_twice_204_then_404 "00000000000000000000000a" ⟨[⟨10, "t", "ty", "m"⟩], 11⟩
     10 (by decide) [] ⟨10, "t", "ty", "m"⟩ [] rfl (by simp) (by simp) (by decide)⟩

/-- C10: on a path id that is not a well-formed 24-character hex
`ObjectId`, the blog delete and update-content handlers raise
`bson.errors.InvalidId` during conversion, before any store access, and
never return 404; conversely, whenever either handler returns an
`HTTPException` (the 404), the id was well-formed and its parsed value
matched no stored document. -/
theorem malformed_blog_id_raises_instead_of_404 (blog_id markdown_content : String)
    (s : BlogsCollection) :
    (isValidObjectIdString blog_id = false →
      delete_blog blog_id s = (Except.error HErr.invalidIdExn, s)
      ∧ update_blog_content blog_id markdown_content s
          = (Except.error HErr.invalidIdExn, s))
    ∧ (∀ code detail s',
        delete_blog blog_id s = (Except.error (HErr.http code detail), s') →
        isValidObjectIdString blog_id = true
        ∧ ∃ n, ObjectId? blog_id = some n ∧ ∀ x ∈ s.docs, (x._id == n) = false)
    ∧ (∀ code detail s',
        update_blog_content blog_id markdown_content s
          = (Except.error (HErr.http code detail), s') →
        isValidObjectIdString blog_id = true
        ∧ ∃ n, ObjectId? blog_id = some n ∧ ∀ x ∈ s.docs, (x._id == n) = false) := by
  refine ⟨?_, ?_, ?_⟩
  · intro hv
    have hnone : ObjectId? blog_id = none := by simp [ObjectId?, hv]
    constructor
    · unfold delete_blog
      rw [hnone]
    · unfold update_blog_content
      rw [hnone]
  · intro code detail s' hdel
    cases hv : isValidObjectIdString blog_id with
    | false =>
      have hnone : ObjectId? blog_id = none := by simp [ObjectId?, hv]
      unfold delete_blog at hdel
      rw [hnone] at hdel
      simp at hdel
    | true =>
      have hsome : ObjectId? blog_id = some (hexToNat blog_id.data) := by
        simp [ObjectId?, hv]
      unfold delete_blog at hdel
      simp only [hsome] at hdel
      cases hdo : delete_one (fun x => x._id == hexToNat blog_id.data) s.docs with
      | some docs' =>
        rw [hdo] at hdel
        simp at hdel
      | none =>
        exact ⟨rfl, hexToNat blog_id.data, hsome, (delete_one_eq_none_iff _ _).mp hdo⟩
  · intro code detail s' hupd
    cases hv : isValidObjectIdString blog_id with
    | false =>
      have hnone : ObjectId? blog_id = none := by simp [ObjectId?, hv]
      unfold update_blog_content at hupd
      rw [hnone] at hupd
      simp at hupd
    | true =>
      have hsome : ObjectId? blog_id = some (hexToNat blog_id.data) := by
        simp [ObjectId?, hv]
      unfold update_blog_content at hupd
      simp only [hsome] at hupd
      cases hfo : findOneAndUpdate (fun x => x._id == hexToNat blog_id.data)
          (fun x => { x with MarkdownContent := markdown_content }) s.docs with
      | some rl =>
        obtain ⟨r, docs'⟩ := rl
        rw [hfo] at hupd
        simp at hupd
      | none =>
        exact ⟨rfl, hexToNat blog_id.data, hsome, (findOneAndUpdate_eq_none_iff _ _ _).mp hfo⟩

/-- Witness for C10: a malformed id raises on both handlers, and a 404
from a well-formed unmatched id certifies well-formedness. -/
theorem malformed_blog_id_raises_instead_of_404_witness :
    isValidObjectIdString "not-a-hex-objectid" = false
    ∧ (delete_blog "not-a-hex-objectid" ⟨[⟨5, "t", "ty", "m"⟩], 6⟩
         = (Except.error HErr.invalidIdExn, ⟨[⟨5, "t", "ty", "m"⟩], 6⟩)
       ∧ update_blog_content "not-a-hex-objectid" "mc" ⟨[⟨5, "t", "ty", "m"⟩], 6⟩
           = (Except.error HErr.invalidIdExn, ⟨[⟨5, "t", "ty", "m"⟩], 6⟩))
    ∧ (isValidObjectIdString "000000000000000000000001" = true
       ∧ ∃ n, ObjectId? "000000000000000000000001" = some n
           ∧ ∀ x ∈ (⟨[⟨5, "t", "ty", "m"⟩], 6⟩ : BlogsCollection).docs,
               (x._id == n) = false) :=
  ⟨by decide,
   (malformed_blog_id_raises_instead_of_404 "not-a-hex-objectid" "mc"
       ⟨[⟨5, "t", "ty", "m"⟩], 6⟩).1 (by decide),
   (malformed_blog_id_raises_instead_of_404 "000000000000000000000001" "mc"
       ⟨[⟨5, "t", "ty", "m"⟩], 6⟩).2.1 404
     ("Blog with id " ++ "000000000000000000000001" ++ " not found")
     ⟨[⟨5, "t", "ty", "m"⟩], 6⟩ (by rfl)⟩

theorem find_email_none (email : String) (docs : List MyDoc)
    (hfree : ∀ d ∈ docs, d.email ≠ some email) :
    docs.find? (fun d => d.email == some email) = none := by
  rw [List.find?_eq_none]
  intro x hx
  simp [hfree x hx]

/-- C9: user creation fails with 400 exactly when some stored document
already carries the email at the time of the preceding existence check —
and then the store is unchanged; otherwise the insert happens, appending
the user document, and the generated id (rendered as text) plus the
username are returned. -/
theorem create_dbuser_conflict_iff_email_taken (username email : String) (s : MyCollection) :
    ((∃ d ∈ s.docs, d.email = some email) →
      create_dbuser username email s
        = (Except.error (HErr.http 400 "Email already registered"), s))
    ∧ ((∀ d ∈ s.docs, d.email ≠ some email) →
      create_dbuser username email s
        = (Except.ok (str_of_oid s.nextOid, username),
           ⟨s.docs ++ [⟨BsonId.oid s.nextOid, none, none, some username, some email⟩],
            s.nextOid + 1⟩)) := by
  constructor
  · rintro ⟨d, hd, hde⟩
    cases hfind : s.docs.find? (fun x => x.email == some email) with
    | none =>
      have := List.find?_eq_none.mp hfind d hd
      simp [hde] at this
    | some u =>
      unfold create_dbuser
      rw [hfind]
  · intro hfree
    unfold create_dbuser
    rw [find_email_none email s.docs hfree]

/-- Witness for C9: the first create on an empty store succeeds; a second
create with the same email then fails with 400 and changes nothing. -/
theorem create_dbuser_conflict_iff_email_taken_witness :
    (∀ d ∈ ([] : List MyDoc), d.email ≠ some "a@b.c")
    ∧ create_dbuser "alice" "a@b.c" ⟨[], 0⟩
        = (Except.ok (str_of_oid 0, "alice"),
           ⟨[⟨BsonId.oid 0, none, none, some "alice", some "a@b.c"⟩], 1⟩)
    ∧ (∃ d ∈ ([⟨BsonId.oid 0, none, none, some "alice", some "a@b.c"⟩] : List MyDoc),
        d.email = some "a@b.c")
    ∧ create_dbuser "bob" "a@b.c" ⟨[⟨BsonId.oid 0, none, none, some "alice", some "a@b.c"⟩], 1⟩
        = (Except.error (HErr.http 400 "Email already registered"),
           ⟨[⟨BsonId.oid 0, none, none, some "alice", some "a@b.c"⟩], 1⟩) :=
  ⟨by simp,
   (create_dbuser_conflict_iff_email_taken "alice" "a@b.c" ⟨[], 0⟩).2 (by simp),
   ⟨⟨BsonId.oid 0, none, none, some "alice", some "a@b.c"⟩, by simp, rfl⟩,
   (create_dbuser_conflict_iff_email_taken "bob" "a@b.c"
       ⟨[⟨BsonId.oid 0, none, none, some "alice", some "a@b.c"⟩], 1⟩).1
     ⟨⟨BsonId.oid 0, none, none, some "alice", some "a@b.c"⟩, by simp, rfl⟩⟩

/-- C4: a user create that passes the email check succeeds and returns the
generated id rendered as text; but the lookup-by-id handler compares that
text directly against the stored `ObjectId` `_id` (no conversion), so —
provided every stored `_id` is a generated `ObjectId`, as every insertion
path guarantees — looking the returned id back up always fails with 404:
lookup-by-id never succeeds for store-created users. -/
theorem created_user_lookup_by_returned_id_fails (username email : String) (s : MyCollection)
    (hids : ∀ d ∈ s.docs, ∃ n, d._id = BsonId.oid n)
    (hfree : ∀ d ∈ s.docs, d.email ≠ some email) :
    create_dbuser username email s
      = (Except.ok (str_of_oid s.nextOid, username),
         ⟨s.docs ++ [⟨BsonId.oid s.nextOid, none, none, some username, some email⟩],
          s.nextOid + 1⟩)
    ∧ ∀ uid : String,
        get_dbuser uid
          ⟨s.docs ++ [⟨BsonId.oid s.nextOid, none, none, some username, some email⟩],
           s.nextOid + 1⟩
          = Except.error (HErr.http 404 "User not found") := by
  constructor
  · unfold create_dbuser
    rw [find_email_none email s.docs hfree]
  · intro uid
    have hfind : (s.docs
        ++ [(⟨BsonId.oid s.nextOid, none, none, some username, some email⟩ : MyDoc)]).find?
        (fun d => d._id == BsonId.str uid) = none := by
      rw [List.find?_eq_none]
      intro x hx
      rcases List.mem_append.mp hx with hx | hx
      · obtain ⟨n, hn⟩ := hids x hx
        simp [hn]
      · rcases List.mem_singleton.mp hx with rfl
        simp
    unfold get_dbuser
    rw [hfind]

/-- Witness for C4: create on the empty store, then look up the returned
id — the 404 is returned even for the exact id string the create
returned. -/
theorem created_user_lookup_by_returned_id_fails_witness :
    (∀ d ∈ ([] : List MyDoc), ∃ n, d._id = BsonId.oid n)
    ∧ create_dbuser "carol" "c@d.e" ⟨[], 0⟩
        = (Except.ok (str_of_oid 0, "carol"),
           ⟨[⟨BsonId.oid 0, none, none, some "carol", some "c@d.e"⟩], 1⟩)
    ∧ get_dbuser (str_of_oid 0)
        ⟨[⟨BsonId.oid 0, none, none, some "carol", some "c@d.e"⟩], 1⟩
        = Except.error (HErr.http 404 "User not found") :=
  ⟨by simp,
   (created_user_lookup_by_returned_id_fails "carol" "c@d.e" ⟨[], 0⟩
       (by simp) (by simp)).1,
   (created_user_lookup_by_returned_id_fails "carol" "c@d.e" ⟨[], 0⟩
       (by simp) (by simp)).2 (str_of_oid 0)⟩
